import Mathlib

/-!
Shallow embedding of `cmd/capibmadm/cmd/vpc/key/create.go` from
`cluster-api-provider-ibmcloud`: the `capibmadm vpc key create` command.

The command reads flags (`--name`, `--public-key`, `--key-path`,
`--resource-group-name`), validates that exactly one of `--public-key` /
`--key-path` is set (PreRunE), optionally scans a key file line by line
(`bufio.Scanner`, each iteration overwriting the captured value), validates
the resolved string with `ssh.ParseAuthorizedKey`, and then performs the
remote pipeline: VPC client construction, account-ID lookup, optional
resource-group resolution, and the create-key call.

External collaborators (the x/crypto SSH parser, the VPC/IAM clients) are not
part of this repository; they are modelled as an oracle structure `Collab`
over which every theorem quantifies.  Errors are modelled as strings;
`fmt.Errorf` wrapping with a `%w` verb becomes string concatenation of the
prefix with the wrapped message.  The run is instrumented with the list of
collaborator calls made (so "no remote call happens" is expressible), with
the emitted log lines, and with the opened/closed state of the key file
handle (Go's `defer publicKeyFile.Close()` closes the handle on every exit
path after a successful open; the embedding applies that closure to every
exit of the post-open continuation).
-/

namespace VpcKeyCreate

/-- Errors, modelled by their message text. -/
abbrev Err := String

/-- Mirrors `vpcv1.ResourceGroupIdentity` (field `ID *string`). -/
structure ResourceGroupIdentity where
  ID : Option String
deriving DecidableEq, Repr

/-- Mirrors the fields of `vpcv1.CreateKeyOptions` used by `createKey`:
`Name *string`, `PublicKey *string`, `ResourceGroup`. -/
structure CreateKeyOptions where
  name : Option String
  publicKey : Option String
  resourceGroup : Option ResourceGroupIdentity
deriving DecidableEq, Repr

/-- `&vpcv1.CreateKeyOptions{}`: the zero-valued options. -/
def CreateKeyOptions.empty : CreateKeyOptions := ⟨none, none, none⟩

/-- `options.SetName(...)`. -/
def CreateKeyOptions.SetName (o : CreateKeyOptions) (n : String) : CreateKeyOptions :=
  { o with name := some n }

/-- `options.SetPublicKey(...)`. -/
def CreateKeyOptions.SetPublicKey (o : CreateKeyOptions) (k : String) : CreateKeyOptions :=
  { o with publicKey := some k }

/-- `options.SetResourceGroup(...)`. -/
def CreateKeyOptions.SetResourceGroup (o : CreateKeyOptions) (g : ResourceGroupIdentity) :
    CreateKeyOptions :=
  { o with resourceGroup := some g }

/-- Mirrors `vpcv1.Key` as used here: field `Name *string`. -/
structure Key where
  Name : Option String
deriving DecidableEq, Repr

/-- Mirrors the `keyCreateOptions` struct of the command. -/
structure KeyCreateOptions where
  name : String
  publicKey : String
  resourceGroupName : String
deriving DecidableEq, Repr

/-- One collaborator call made during a run, with its argument where the
claims need to observe it. -/
inductive CallEvent where
  | fileOpen
  | sshParse (arg : String)
  | newV1Client
  | getAccountID
  | getResourceGroupID (name : String) (accountID : String)
  | vpcCreateKey (req : CreateKeyOptions)
deriving DecidableEq, Repr

/-- The external collaborators consumed by the command, as an oracle:
`ssh.ParseAuthorizedKey`, `vpc.NewV1Client`, `utils.GetAccountID`,
`utils.GetResourceGroupID`, `vpcClient.CreateKey`.  `CreateKey` returns a
possibly-nil pointer to a `Key` whose `Name` is a possibly-nil pointer. -/
structure Collab where
  ParseAuthorizedKey : String → Except Err Unit
  NewV1Client : Except Err Unit
  GetAccountID : Except Err String
  GetResourceGroupID : String → String → Except Err String
  CreateKey : CreateKeyOptions → Except Err (Option Key)

/-- Outcome of a run: normal return with `nil` error, normal return with a
non-nil error, or a runtime panic (nil-pointer dereference). -/
inductive RResult where
  | ok
  | err (msg : Err)
  | panics
deriving DecidableEq, Repr

/-- Result of the inner `createKey` function, instrumented with the
collaborator calls made and the log lines emitted (message, key-name). -/
structure CreateKeyResult where
  res : RResult
  calls : List CallEvent
  logs : List (String × String)
deriving DecidableEq, Repr

/-- Result of the whole handler, additionally tracking the key-file handle. -/
structure RunResult where
  res : RResult
  calls : List CallEvent
  logs : List (String × String)
  fileOpened : Bool
  fileClosed : Bool
deriving DecidableEq, Repr

/-- The result of a `bufio.Scanner` over the opened key file: the tokens the
scan loop received, and the read error (if any) that `Err()` would report
after the loop.  The source never calls `Err()`, and accordingly no
definition below reads `scanErr`. -/
structure ScannedFile where
  tokens : List String
  scanErr : Option Err
deriving DecidableEq, Repr

/-- `bufio.dropCR`: strips one trailing carriage return. -/
def dropCR (l : List Char) : List Char :=
  if l.getLast? = some '\r' then l.dropLast else l

/-- `bufio.ScanLines` applied to the whole contents: each newline ends a
token (with a trailing CR dropped); leftover bytes at EOF form a final
token; EOF with no leftover bytes produces no token. -/
def scanLinesAux : List Char → List Char → List (List Char)
  | [], acc => if acc.isEmpty then [] else [dropCR acc.reverse]
  | c :: rest, acc =>
    if c = '\n' then dropCR acc.reverse :: scanLinesAux rest []
    else scanLinesAux rest (c :: acc)

/-- The tokens a `bufio.Scanner` with the default `ScanLines` split yields
on a file with the given contents. -/
def scanLines (s : String) : List String :=
  (scanLinesAux s.data []).map (fun l => String.mk l)

/-- The scan loop of `RunE`:
`for publicKeyScanner.Scan() { keyCreateOption.publicKey = publicKeyScanner.Text() }` —
each iteration overwrites `publicKey`, so the loop leaves the last token,
or the initial flag value if there is no token. -/
def resolvedPublicKey (tokens : List String) (publicKey : String) : String :=
  tokens.foldl (fun _ t => t) publicKey

/-- `cmd.PreRunE`: rejects the flag assignment when `--public-key` and
`--key-path` are both empty or both non-empty. -/
def preRunE (publicKey : String) (filePath : String) : Except Err Unit :=
  if ((publicKey == "") == (filePath == "")) then
    .error "the required flags either key-path of vpc key or the public-key within double quotation marks is not found"
  else
    .ok ()

/-- Lines 126–130 of the source: `key, _, err := vpcClient.CreateKey(options)`
followed by `log.Info("VPC Key created successfully,", "key-name", *key.Name)`
when `err == nil`.  Dereferencing a nil `key` or nil `key.Name` panics. -/
def vpcCreateCall (c : Collab) (options : CreateKeyOptions) (calls : List CallEvent) :
    CreateKeyResult :=
  match c.CreateKey options with
  | .error e => ⟨.err e, calls ++ [.vpcCreateKey options], []⟩
  | .ok none => ⟨.panics, calls ++ [.vpcCreateKey options], []⟩
  | .ok (some key) =>
    match key.Name with
    | none => ⟨.panics, calls ++ [.vpcCreateKey options], []⟩
    | some n => ⟨.ok, calls ++ [.vpcCreateKey options], [("VPC Key created successfully,", n)]⟩

/-- The `createKey` function of the source: client construction, account-ID
lookup, request assembly, optional resource-group resolution, create call. -/
def createKey (c : Collab) (keyCreateOption : KeyCreateOptions) : CreateKeyResult :=
  match c.NewV1Client with
  | .error e => ⟨.err e, [.newV1Client], []⟩
  | .ok _ =>
    match c.GetAccountID with
    | .error e => ⟨.err e, [.newV1Client, .getAccountID], []⟩
    | .ok accountID =>
      let options := (CreateKeyOptions.empty.SetName keyCreateOption.name).SetPublicKey
        keyCreateOption.publicKey
      if keyCreateOption.resourceGroupName ≠ "" then
        match c.GetResourceGroupID keyCreateOption.resourceGroupName accountID with
        | .error e =>
          ⟨.err e,
            [.newV1Client, .getAccountID,
              .getResourceGroupID keyCreateOption.resourceGroupName accountID], []⟩
        | .ok resourceGroupID =>
          vpcCreateCall c (options.SetResourceGroup ⟨some resourceGroupID⟩)
            [.newV1Client, .getAccountID,
              .getResourceGroupID keyCreateOption.resourceGroupName accountID]
      else
        vpcCreateCall c options [.newV1Client, .getAccountID]

/-- The part of `RunE` after key-material resolution: SSH format validation,
then the call to `createKey`, whose error is returned as-is. -/
def afterScan (c : Collab) (keyCreateOption : KeyCreateOptions) (calls0 : List CallEvent) :
    RunResult :=
  match c.ParseAuthorizedKey keyCreateOption.publicKey with
  | .error e =>
    ⟨.err ("the provided VPC key is invalid. " ++ e ++ " "),
      calls0 ++ [.sshParse keyCreateOption.publicKey], [], false, false⟩
  | .ok _ =>
    let r := createKey c keyCreateOption
    ⟨r.res, calls0 ++ [.sshParse keyCreateOption.publicKey] ++ r.calls, r.logs, false, false⟩

/-- `cmd.RunE`: `filePath` is the `--key-path` value and `file` the outcome of
`os.Open(filePath)` together with what the scanner would produce.  After a
successful open, `defer publicKeyFile.Close()` closes the handle on every
exit path, which the embedding renders by marking `fileClosed` on the result
of the whole continuation. -/
def runE (c : Collab) (filePath : String) (file : Except Err ScannedFile)
    (keyCreateOption : KeyCreateOptions) : RunResult :=
  if filePath ≠ "" then
    match file with
    | .error e => ⟨.err ("unable to open file. " ++ e), [.fileOpen], [], false, false⟩
    | .ok sf =>
      let r := afterScan c
        { keyCreateOption with
            publicKey := resolvedPublicKey sf.tokens keyCreateOption.publicKey }
        [.fileOpen]
      { r with fileOpened := true, fileClosed := true }
  else
    afterScan c keyCreateOption []

/-- The whole command: cobra runs `PreRunE` first and, if it returns an
error, reports it without running `RunE`. -/
def command (c : Collab) (filePath : String) (file : Except Err ScannedFile)
    (opt : KeyCreateOptions) : RunResult :=
  match preRunE opt.publicKey filePath with
  | .error e => ⟨.err e, [], [], false, false⟩
  | .ok _ => runE c filePath file opt

/-- Convenience: run `RunE` on a key file that opens and reads without error,
with the given raw contents. -/
def runEWithContent (c : Collab) (filePath : String) (content : String)
    (opt : KeyCreateOptions) : RunResult :=
  runE c filePath (.ok ⟨scanLines content, none⟩) opt

/-- Selector for the argument of an SSH-parse call. -/
def sshSel : CallEvent → Option String
  | .sshParse s => some s
  | _ => none

/-- Selector for the request of a create-key call. -/
def createSel : CallEvent → Option CreateKeyOptions
  | .vpcCreateKey q => some q
  | _ => none

/-- The arguments passed to SSH format validation during a run. -/
def sshParseArgs (r : RunResult) : List String :=
  r.calls.filterMap sshSel

/-- The requests passed to the remote create-key call during a run. -/
def createReqs (r : RunResult) : List CreateKeyOptions :=
  r.calls.filterMap createSel

/-- The requests passed to the remote create-key call inside `createKey`. -/
def ckCreateReqs (r : CreateKeyResult) : List CreateKeyOptions :=
  r.calls.filterMap createSel

/-- Remote calls: client construction, account-ID lookup, resource-group
lookup, create-key.  (File open and the local SSH parse are not remote.) -/
def isRemote : CallEvent → Bool
  | .newV1Client => true
  | .getAccountID => true
  | .getResourceGroupID _ _ => true
  | .vpcCreateKey _ => true
  | _ => false

/-- The remote calls made during a run. -/
def remoteCalls (r : RunResult) : List CallEvent :=
  r.calls.filter isRemote

/-- The public-key string `RunE` resolves for a given file-scan outcome:
the scan-loop result when `--key-path` is non-empty, the `--public-key`
flag value otherwise. -/
def resolvedOf (filePath : String) (sf : ScannedFile) (opt : KeyCreateOptions) : String :=
  if filePath ≠ "" then resolvedPublicKey sf.tokens opt.publicKey else opt.publicKey

/-- The public-key string the run resolves, as a function of the whole
file-open outcome: for a non-empty `--key-path` and a readable file, the
scan-loop result; otherwise the `--public-key` flag value (an unreadable
file never reaches resolution). -/
def resolvedInput (filePath : String) (file : Except Err ScannedFile)
    (opt : KeyCreateOptions) : String :=
  if filePath ≠ "" then
    match file with
    | .ok sf => resolvedPublicKey sf.tokens opt.publicKey
    | .error _ => opt.publicKey
  else opt.publicKey

/-- Spec-side definition, following the claim wording "the last non-empty
line of the file", for comparison with the code's behaviour. -/
def lastNonEmptyLine (tokens : List String) : Option String :=
  (tokens.filter (fun t => t ≠ "")).getLast?

/-- An all-succeeding oracle used to instantiate witnesses. -/
def collabStub : Collab where
  ParseAuthorizedKey := fun _ => .ok ()
  NewV1Client := .ok ()
  GetAccountID := .ok "account-id"
  GetResourceGroupID := fun _ _ => .ok "resource-group-id"
  CreateKey := fun _ => .ok (some ⟨some "foo"⟩)

/-- An oracle whose SSH parser rejects every string. -/
def collabRejectKey : Collab :=
  { collabStub with ParseAuthorizedKey := fun _ => .error "ssh: no key found" }

/-- An oracle whose VPC client construction fails. -/
def collabBadClient : Collab :=
  { collabStub with NewV1Client := .error "dial tcp: no such host" }

/-- An oracle whose create-key call succeeds but returns a key whose `Name`
pointer is nil. -/
def collabNilName : Collab :=
  { collabStub with CreateKey := fun _ => .ok (some ⟨none⟩) }

/-! ## Helper lemmas -/

/-- The overwrite-loop leaves the last token, or the initial value when
there is none. -/
theorem foldl_overwrite (ts : List String) (init : String) :
    ts.foldl (fun _ t => t) init = ts.getLast?.getD init := by
  induction ts generalizing init with
  | nil => rfl
  | cons a t ih =>
    cases t with
    | nil => rfl
    | cons b u =>
      rw [List.foldl_cons, ih, List.getLast?_cons_cons]
      have h : ((b :: u).getLast?).isSome := by
        rw [List.getLast?_isSome]
        simp
      obtain ⟨x, hx⟩ := Option.isSome_iff_exists.mp h
      rw [hx]
      rfl

/-- The calls recorded by the create-call tail. -/
theorem vpcCreateCall_calls (c : Collab) (options : CreateKeyOptions) (calls : List CallEvent) :
    (vpcCreateCall c options calls).calls = calls ++ [.vpcCreateKey options] := by
  unfold vpcCreateCall
  rcases c.CreateKey options with e | k
  · rfl
  · rcases k with _ | key
    · rfl
    · obtain ⟨nm⟩ := key
      cases nm <;> rfl

/-- `createKey` never calls the SSH parser. -/
theorem createKey_no_ssh (c : Collab) (o : KeyCreateOptions) :
    (createKey c o).calls.filterMap sshSel = [] := by
  unfold createKey
  rcases c.NewV1Client with e | u
  · simp [sshSel]
  rcases c.GetAccountID with e | a
  · simp [sshSel]
  simp only
  split
  · rcases h : c.GetResourceGroupID o.resourceGroupName a with e | g <;>
      simp [h, vpcCreateCall_calls, sshSel]
  · simp [vpcCreateCall_calls, sshSel]

/-- After the scan, the SSH parser is called exactly once, on the resolved
public key. -/
theorem afterScan_sshArgs (c : Collab) (opt : KeyCreateOptions) (calls0 : List CallEvent)
    (h0 : calls0.filterMap sshSel = []) :
    (afterScan c opt calls0).calls.filterMap sshSel = [opt.publicKey] := by
  unfold afterScan
  rcases hp : c.ParseAuthorizedKey opt.publicKey with e | u <;>
    simp [hp, List.filterMap_append, h0, sshSel, createKey_no_ssh]

/-- `RunE` on a readable file passes exactly the resolved key to SSH
validation. -/
theorem runE_sshArgs (c : Collab) (fp : String) (sf : ScannedFile) (opt : KeyCreateOptions) :
    sshParseArgs (runE c fp (.ok sf) opt) = [resolvedOf fp sf opt] := by
  by_cases h : fp = ""
  · subst h
    simp only [runE, resolvedOf, sshParseArgs, ne_eq, not_true_eq_false, if_false]
    exact afterScan_sshArgs c opt [] rfl
  · simp only [runE, resolvedOf, sshParseArgs, if_pos h]
    exact afterScan_sshArgs c
      { opt with publicKey := resolvedPublicKey sf.tokens opt.publicKey } [.fileOpen] rfl

/-! ## Claims -/

/-- Claim C1, counterexample: the file `"k\n\n"` contains a non-empty line,
its last non-empty line is `"k"`, but the resolved public-key string — the
one passed to SSH validation — is the empty string, because the scanner
also yields the final empty line and the loop keeps the last token. -/
theorem C1_counterexample :
    (scanLines "k\n\n").any (fun t => t ≠ "") = true ∧
    lastNonEmptyLine (scanLines "k\n\n") = some "k" ∧
    resolvedPublicKey (scanLines "k\n\n") "" = "" ∧
    sshParseArgs (runEWithContent collabStub "p" "k\n\n" ⟨"n", "", ""⟩) = [""] ∧
    ("" : String) ≠ "k" :=
  ⟨by decide, by decide, by decide, by decide, by decide⟩

/-- Claim C1, amended: for every key file supplied via `--key-path`, the
resolved public-key string (the value passed to SSH format validation)
equals the last line the scanner yields — which may be empty, e.g. when the
file ends in a blank line — falling back to the `--public-key` flag value
when the file yields no line at all; when `--key-path` is empty, the
resolved public-key string equals the `--public-key` flag value literally. -/
theorem C1_last_line (c : Collab) (filePath : String) (sf : ScannedFile)
    (file : Except Err ScannedFile) (opt : KeyCreateOptions) :
    (filePath ≠ "" →
      sshParseArgs (runE c filePath (.ok sf) opt) = [sf.tokens.getLast?.getD opt.publicKey]) ∧
    (filePath = "" → sshParseArgs (runE c filePath file opt) = [opt.publicKey]) := by
  constructor
  · intro h
    rw [runE_sshArgs]
    unfold resolvedOf resolvedPublicKey
    rw [if_pos h, foldl_overwrite]
  · intro h
    subst h
    rcases file with e | sf2
    · simp only [runE, sshParseArgs, ne_eq, not_true_eq_false, if_false]
      exact afterScan_sshArgs c opt [] rfl
    · simp only [runE, sshParseArgs, ne_eq, not_true_eq_false, if_false]
      exact afterScan_sshArgs c opt [] rfl

/-- Witness for C1_last_line at a concrete two-line file. -/
theorem C1_last_line_witness :
    sshParseArgs (runE collabStub "p" (.ok ⟨["a", "b"], none⟩) ⟨"n", "", ""⟩) = ["b"] := by
  have h := (C1_last_line collabStub "p" ⟨["a", "b"], none⟩ (.ok ⟨[], none⟩)
    ⟨"n", "", ""⟩).1 (by decide)
  simpa using h

/-- Claim C2: when `--public-key` and `--key-path` are both empty or both
non-empty, the command fails in pre-run validation with an error, and no
file read or collaborator call is attempted (the recorded call list is
empty); when exactly one of them is non-empty, pre-run validation
succeeds. -/
theorem C2_mutual_exclusion (c : Collab) (filePath : String) (file : Except Err ScannedFile)
    (opt : KeyCreateOptions) :
    (((opt.publicKey = "") ↔ (filePath = "")) →
      (command c filePath file opt).calls = [] ∧
      ∃ m, (command c filePath file opt).res = .err m) ∧
    (¬((opt.publicKey = "") ↔ (filePath = "")) →
      preRunE opt.publicKey filePath = .ok ()) := by
  constructor
  · intro h
    have hb : ((opt.publicKey == "") == (filePath == "")) = true := by
      by_cases h1 : opt.publicKey = "" <;> by_cases h2 : filePath = "" <;>
        simp [h1, h2] at h ⊢
    simp only [command, preRunE, hb, if_true]
    exact ⟨trivial, _, rfl⟩
  · intro h
    have hb : ((opt.publicKey == "") == (filePath == "")) = false := by
      by_cases h1 : opt.publicKey = "" <;> by_cases h2 : filePath = "" <;>
        simp [h1, h2] at h ⊢
    simp only [preRunE, hb]
    rfl

/-- Witness for C2_mutual_exclusion: with both flags empty the command
errors out having made no call at all. -/
theorem C2_mutual_exclusion_witness :
    (command collabStub "" (.ok ⟨[], none⟩) ⟨"n", "", ""⟩).calls = [] ∧
    ∃ m, (command collabStub "" (.ok ⟨[], none⟩) ⟨"n", "", ""⟩).res = .err m :=
  (C2_mutual_exclusion collabStub "" (.ok ⟨[], none⟩) ⟨"n", "", ""⟩).1 (by simp)

/-- Claim C3: whenever the resolved public-key string fails SSH
authorized-key parsing, the run returns an error that wraps the parse
failure with the invalid-VPC-key prefix, and makes no remote call: no
client construction, no account-ID lookup, no resource-group lookup, no
create-key. -/
theorem C3_invalid_key (c : Collab) (filePath : String) (sf : ScannedFile)
    (opt : KeyCreateOptions) (e : Err)
    (h : c.ParseAuthorizedKey (resolvedOf filePath sf opt) = .error e) :
    (runE c filePath (.ok sf) opt).res = .err ("the provided VPC key is invalid. " ++ e ++ " ") ∧
    remoteCalls (runE c filePath (.ok sf) opt) = [] := by
  by_cases hf : filePath = ""
  · subst hf
    simp only [resolvedOf, ne_eq, not_true_eq_false, if_false] at h
    simp only [runE, remoteCalls, ne_eq, not_true_eq_false, if_false, afterScan, h]
    exact ⟨trivial, by simp [isRemote]⟩
  · simp only [resolvedOf, if_pos hf] at h
    simp only [runE, remoteCalls, if_pos hf, afterScan, h]
    exact ⟨trivial, by simp [isRemote]⟩

/-- Witness for C3_invalid_key: a rejecting parser yields the wrapped error
and an empty remote-call list. -/
theorem C3_invalid_key_witness :
    (runE collabRejectKey "" (.ok ⟨[], none⟩) ⟨"n", "not-a-key", ""⟩).res =
      .err ("the provided VPC key is invalid. " ++ "ssh: no key found" ++ " ") ∧
    remoteCalls (runE collabRejectKey "" (.ok ⟨[], none⟩) ⟨"n", "not-a-key", ""⟩) = [] :=
  C3_invalid_key collabRejectKey "" ⟨[], none⟩ ⟨"n", "not-a-key", ""⟩ "ssh: no key found" rfl

/-- Claim C4: the remote create-key call is never made unless every earlier
step succeeded — if client construction fails, if account-ID resolution
fails, or if the requested resource-group lookup fails, `createKey` returns
that error verbatim and records no create-key call. -/
theorem C4_no_create_on_failure (c : Collab) (opt : KeyCreateOptions) :
    (∀ e, c.NewV1Client = .error e →
      (createKey c opt).res = .err e ∧ ckCreateReqs (createKey c opt) = []) ∧
    (∀ e, c.NewV1Client = .ok () → c.GetAccountID = .error e →
      (createKey c opt).res = .err e ∧ ckCreateReqs (createKey c opt) = []) ∧
    (∀ a e, c.NewV1Client = .ok () → c.GetAccountID = .ok a →
      opt.resourceGroupName ≠ "" →
      c.GetResourceGroupID opt.resourceGroupName a = .error e →
      (createKey c opt).res = .err e ∧ ckCreateReqs (createKey c opt) = []) := by
  refine ⟨?_, ?_, ?_⟩
  · intro e he
    simp [createKey, he, ckCreateReqs, createSel]
  · intro e h1 h2
    simp [createKey, h1, h2, ckCreateReqs, createSel]
  · intro a e h1 h2 h3 h4
    simp [createKey, h1, h2, h3, h4, ckCreateReqs, createSel]

/-- Witness for C4_no_create_on_failure: failing client construction
surfaces verbatim with no create-key call recorded. -/
theorem C4_no_create_on_failure_witness :
    (createKey collabBadClient ⟨"n", "k", ""⟩).res = .err "dial tcp: no such host" ∧
    ckCreateReqs (createKey collabBadClient ⟨"n", "k", ""⟩) = [] :=
  (C4_no_create_on_failure collabBadClient ⟨"n", "k", ""⟩).1 "dial tcp: no such host" rfl

/-- Claim C5: every create-key request carries `name = --name` and
`publicKey = the resolved public-key string`, and its resource-group field
is populated with the resolved group ID exactly when `--resource-group-name`
was non-empty — with no resource-group name, the request carries no
resource-group reference. -/
theorem C5_request_fields (c : Collab) (opt : KeyCreateOptions) (a : String)
    (h1 : c.NewV1Client = .ok ()) (h2 : c.GetAccountID = .ok a) :
    (opt.resourceGroupName = "" →
      ckCreateReqs (createKey c opt) = [⟨some opt.name, some opt.publicKey, none⟩]) ∧
    (∀ gid, opt.resourceGroupName ≠ "" →
      c.GetResourceGroupID opt.resourceGroupName a = .ok gid →
      ckCreateReqs (createKey c opt) =
        [⟨some opt.name, some opt.publicKey, some ⟨some gid⟩⟩]) := by
  constructor
  · intro h
    simp [createKey, h1, h2, h, ckCreateReqs, createSel, vpcCreateCall_calls,
      CreateKeyOptions.empty, CreateKeyOptions.SetName, CreateKeyOptions.SetPublicKey]
  · intro gid h h3
    simp [createKey, h1, h2, h, h3, ckCreateReqs, createSel, vpcCreateCall_calls,
      CreateKeyOptions.empty, CreateKeyOptions.SetName, CreateKeyOptions.SetPublicKey,
      CreateKeyOptions.SetResourceGroup]

/-- Witness for C5_request_fields: with no resource-group name the single
create-key request has the name, the key, and no resource-group field. -/
theorem C5_request_fields_witness :
    ckCreateReqs (createKey collabStub ⟨"foo", "ssh-rsa AAAA comment", ""⟩) =
      [⟨some "foo", some "ssh-rsa AAAA comment", none⟩] :=
  (C5_request_fields collabStub ⟨"foo", "ssh-rsa AAAA comment", ""⟩ "account-id" rfl rfl).1 rfl

/-- The create-call tail either succeeds or emits no log line. -/
theorem vpcCreateCall_ok_or_silent (c : Collab) (options : CreateKeyOptions)
    (calls : List CallEvent) :
    (vpcCreateCall c options calls).res = .ok ∨ (vpcCreateCall c options calls).logs = [] := by
  unfold vpcCreateCall
  rcases c.CreateKey options with e | k
  · exact .inr rfl
  rcases k with _ | key
  · exact .inr rfl
  obtain ⟨nm⟩ := key
  cases nm
  · exact .inr rfl
  · exact .inl rfl

/-- `createKey` either succeeds or emits no log line. -/
theorem createKey_ok_or_silent (c : Collab) (o : KeyCreateOptions) :
    (createKey c o).res = .ok ∨ (createKey c o).logs = [] := by
  unfold createKey
  rcases c.NewV1Client with e | u
  · exact .inr rfl
  rcases c.GetAccountID with e | a
  · exact .inr rfl
  simp only
  split
  · rcases c.GetResourceGroupID o.resourceGroupName a with e | g
    · exact .inr rfl
    · exact vpcCreateCall_ok_or_silent c _ _
  · exact vpcCreateCall_ok_or_silent c _ _

/-- A successful create call returning a key named `N` yields a `nil` error
and exactly one success log line carrying `N`. -/
theorem vpcCreateCall_success (c : Collab) (options : CreateKeyOptions)
    (calls : List CallEvent) (N : String)
    (h : c.CreateKey options = .ok (some ⟨some N⟩)) :
    (vpcCreateCall c options calls).res = .ok ∧
    (vpcCreateCall c options calls).logs = [("VPC Key created successfully,", N)] := by
  unfold vpcCreateCall
  rw [h]
  exact ⟨rfl, rfl⟩

/-- When every collaborator in `createKey` succeeds and the remote call
returns a key named `N`, `createKey` succeeds with the success log line. -/
theorem createKey_success (c : Collab) (o : KeyCreateOptions) (a N : String)
    (h1 : c.NewV1Client = .ok ()) (h2 : c.GetAccountID = .ok a)
    (h3 : o.resourceGroupName ≠ "" → ∃ g, c.GetResourceGroupID o.resourceGroupName a = .ok g)
    (hck : ∀ q, c.CreateKey q = .ok (some ⟨some N⟩)) :
    (createKey c o).res = .ok ∧
    (createKey c o).logs = [("VPC Key created successfully,", N)] := by
  by_cases hrg : o.resourceGroupName = ""
  · simp only [createKey, h1, h2, hrg, ne_eq, not_true_eq_false, if_false]
    exact vpcCreateCall_success c _ _ N (hck _)
  · obtain ⟨g, hg⟩ := h3 hrg
    simp only [createKey, h1, h2, hg, ne_eq, hrg, not_false_eq_true, if_true]
    exact vpcCreateCall_success c _ _ N (hck _)

/-- When SSH validation passes, `afterScan` returns exactly what `createKey`
returns, error and logs alike. -/
theorem afterScan_parse_ok (c : Collab) (opt : KeyCreateOptions) (calls0 : List CallEvent)
    (h : c.ParseAuthorizedKey opt.publicKey = .ok ()) :
    (afterScan c opt calls0).res = (createKey c opt).res ∧
    (afterScan c opt calls0).logs = (createKey c opt).logs := by
  unfold afterScan
  simp [h]

/-- A failing `afterScan` emits no log line. -/
theorem afterScan_err_logs (c : Collab) (opt : KeyCreateOptions) (calls0 : List CallEvent)
    (m : Err) (h : (afterScan c opt calls0).res = .err m) :
    (afterScan c opt calls0).logs = [] := by
  unfold afterScan at h ⊢
  rcases hp : c.ParseAuthorizedKey opt.publicKey with e | u
  · simp [hp]
  · simp only [hp] at h ⊢
    rcases createKey_ok_or_silent c opt with hok | hsil
    · rw [hok] at h
      simp at h
    · exact hsil

/-- A failing `RunE` emits no log line. -/
theorem runE_err_logs (c : Collab) (fp : String) (file : Except Err ScannedFile)
    (opt : KeyCreateOptions) (m : Err) (h : (runE c fp file opt).res = .err m) :
    (runE c fp file opt).logs = [] := by
  unfold runE at h ⊢
  by_cases hf : fp = ""
  · subst hf
    simp only [ne_eq, not_true_eq_false, if_false] at h ⊢
    exact afterScan_err_logs c opt [] m h
  · rw [if_pos hf] at h ⊢
    rcases file with e | sf
    · rfl
    · exact afterScan_err_logs c _ [.fileOpen] m h

/-- Claim C6: when pre-run validation, the key file, SSH validation and
every collaborator succeed and the remote call returns a key named `N`, the
command returns no error and emits exactly one informational log line whose
message extends "VPC Key created successfully" (by a trailing comma) and
key-name `N`; and on every failure branch (a returned error) it emits no
log line at all. -/
theorem C6_success_log (c : Collab) (filePath : String) (file : Except Err ScannedFile)
    (opt : KeyCreateOptions) (N : String) :
    ((∀ q, c.CreateKey q = .ok (some ⟨some N⟩)) →
      c.ParseAuthorizedKey (resolvedInput filePath file opt) = .ok () →
      c.NewV1Client = .ok () →
      (∃ a, c.GetAccountID = .ok a ∧
        (opt.resourceGroupName ≠ "" →
          ∃ g, c.GetResourceGroupID opt.resourceGroupName a = .ok g)) →
      preRunE opt.publicKey filePath = .ok () →
      (filePath ≠ "" → ∃ sf, file = .ok sf) →
      (command c filePath file opt).res = .ok ∧
      (command c filePath file opt).logs = [("VPC Key created successfully,", N)] ∧
      ("VPC Key created successfully," : String) = "VPC Key created successfully" ++ ",") ∧
    (∀ m, (command c filePath file opt).res = .err m →
      (command c filePath file opt).logs = []) := by
  constructor
  · intro hck hp hcl ha hpre hfile
    obtain ⟨a, ha, hrg⟩ := ha
    refine ⟨?_, ?_, rfl⟩ <;>
    · simp only [command, hpre]
      by_cases hf : filePath = ""
      · subst hf
        simp only [resolvedInput, ne_eq, not_true_eq_false, if_false] at hp
        simp only [runE, ne_eq, not_true_eq_false, if_false]
        have h1 := afterScan_parse_ok c opt [] hp
        have h2 := createKey_success c opt a N hcl ha hrg hck
        first
          | exact h1.1.trans h2.1
          | exact h1.2.trans h2.2
      · obtain ⟨sf, hsf⟩ := hfile hf
        subst hsf
        simp only [resolvedInput, ne_eq, hf, not_false_eq_true, if_true] at hp
        simp only [runE, ne_eq, hf, not_false_eq_true, if_true]
        have h1 := afterScan_parse_ok c
          { opt with publicKey := resolvedPublicKey sf.tokens opt.publicKey } [.fileOpen] hp
        have h2 := createKey_success c
          { opt with publicKey := resolvedPublicKey sf.tokens opt.publicKey } a N hcl ha hrg hck
        first
          | exact h1.1.trans h2.1
          | exact h1.2.trans h2.2
  · intro m h
    simp only [command] at h ⊢
    rcases hpre : preRunE opt.publicKey filePath with e | u
    · simp [hpre]
    · simp only [hpre] at h ⊢
      exact runE_err_logs c filePath file opt m h

/-- Witness for C6_success_log: a fully successful run returns `nil` and
logs the success line with the created key's name. -/
theorem C6_success_log_witness :
    (command collabStub "" (.ok ⟨[], none⟩) ⟨"foo", "ssh-rsa AAAA comment", ""⟩).res = .ok ∧
    (command collabStub "" (.ok ⟨[], none⟩) ⟨"foo", "ssh-rsa AAAA comment", ""⟩).logs =
      [("VPC Key created successfully,", "foo")] ∧
    ("VPC Key created successfully," : String) = "VPC Key created successfully" ++ "," :=
  (C6_success_log collabStub "" (.ok ⟨[], none⟩) ⟨"foo", "ssh-rsa AAAA comment", ""⟩ "foo").1
    (fun _ => rfl) rfl rfl ⟨"account-id", rfl, fun h => absurd rfl h⟩ rfl
    (fun h => absurd rfl h)

/-- `afterScan` never touches the file-handle fields. -/
theorem afterScan_file_fields (c : Collab) (opt : KeyCreateOptions) (calls0 : List CallEvent) :
    (afterScan c opt calls0).fileOpened = false ∧ (afterScan c opt calls0).fileClosed = false := by
  unfold afterScan
  rcases hp : c.ParseAuthorizedKey opt.publicKey with e | u <;> simp [hp]

/-- A create call whose surrounding run returned `nil` must have produced a
non-nil key with a non-nil name. -/
theorem vpcCreateCall_ok_name (c : Collab) (options : CreateKeyOptions)
    (calls : List CallEvent) (h : (vpcCreateCall c options calls).res = .ok) :
    ∃ n, c.CreateKey options = .ok (some ⟨some n⟩) := by
  unfold vpcCreateCall at h
  rcases hk : c.CreateKey options with e | k <;> rw [hk] at h
  · simp at h
  rcases k with _ | key
  · simp at h
  obtain ⟨nm⟩ := key
  cases nm with
  | none => simp at h
  | some n => exact ⟨n, rfl⟩

/-- Claim C7: exactly the file-open and key-validation stages wrap their
underlying error with a contextual prefix; every collaborator error —
client construction, account-ID resolution, resource-group lookup, and the
create-key call itself — is returned verbatim (the parse-ok conjunct shows
`RunE` returns whatever `createKey` returns, unmodified). -/
theorem C7_error_wrapping (c : Collab) (filePath : String) (sf : ScannedFile)
    (opt : KeyCreateOptions) (e : Err) :
    (filePath ≠ "" →
      (runE c filePath (.error e) opt).res = .err ("unable to open file. " ++ e)) ∧
    (c.ParseAuthorizedKey (resolvedOf filePath sf opt) = .error e →
      (runE c filePath (.ok sf) opt).res =
        .err ("the provided VPC key is invalid. " ++ e ++ " ")) ∧
    (c.ParseAuthorizedKey (resolvedOf filePath sf opt) = .ok () →
      (runE c filePath (.ok sf) opt).res =
        (createKey c { opt with publicKey := resolvedOf filePath sf opt }).res) ∧
    (c.NewV1Client = .error e → (createKey c opt).res = .err e) ∧
    (c.NewV1Client = .ok () → c.GetAccountID = .error e → (createKey c opt).res = .err e) ∧
    (∀ a, c.NewV1Client = .ok () → c.GetAccountID = .ok a → opt.resourceGroupName ≠ "" →
      c.GetResourceGroupID opt.resourceGroupName a = .error e →
      (createKey c opt).res = .err e) ∧
    (∀ a, c.NewV1Client = .ok () → c.GetAccountID = .ok a → opt.resourceGroupName = "" →
      c.CreateKey ⟨some opt.name, some opt.publicKey, none⟩ = .error e →
      (createKey c opt).res = .err e) ∧
    (∀ a gid, c.NewV1Client = .ok () → c.GetAccountID = .ok a →
      opt.resourceGroupName ≠ "" →
      c.GetResourceGroupID opt.resourceGroupName a = .ok gid →
      c.CreateKey ⟨some opt.name, some opt.publicKey, some ⟨some gid⟩⟩ = .error e →
      (createKey c opt).res = .err e) := by
  refine ⟨?_, ?_, ?_, ?_, ?_, ?_, ?_, ?_⟩
  · intro h
    unfold runE
    rw [if_pos h]
  · intro h
    by_cases hf : filePath = ""
    · subst hf
      simp only [resolvedOf, ne_eq, not_true_eq_false, if_false] at h
      simp only [runE, afterScan, ne_eq, not_true_eq_false, if_false, h]
    · simp only [resolvedOf, if_pos hf] at h
      simp only [runE, afterScan, if_pos hf, h]
  · intro h
    by_cases hf : filePath = ""
    · subst hf
      simp only [resolvedOf, ne_eq, not_true_eq_false, if_false] at h ⊢
      simp only [runE, ne_eq, not_true_eq_false, if_false]
      exact (afterScan_parse_ok c opt [] h).1
    · simp only [resolvedOf, if_pos hf] at h ⊢
      simp only [runE, if_pos hf]
      exact (afterScan_parse_ok c
        { opt with publicKey := resolvedPublicKey sf.tokens opt.publicKey } [.fileOpen] h).1
  · intro h
    simp [createKey, h]
  · intro h1 h2
    simp [createKey, h1, h2]
  · intro a h1 h2 h3 h4
    simp [createKey, h1, h2, h3, h4]
  · intro a h1 h2 h3 h4
    simp [createKey, vpcCreateCall, h1, h2, h3, CreateKeyOptions.empty,
      CreateKeyOptions.SetName, CreateKeyOptions.SetPublicKey, h4]
  · intro a gid h1 h2 h3 h4 h5
    simp [createKey, vpcCreateCall, h1, h2, h3, h4, CreateKeyOptions.empty,
      CreateKeyOptions.SetName, CreateKeyOptions.SetPublicKey,
      CreateKeyOptions.SetResourceGroup, h5]

/-- Witness for C7_error_wrapping: a failing file open is reported with the
file-open prefix around the OS error. -/
theorem C7_error_wrapping_witness :
    (runE collabStub "p" (.error "no such file or directory") ⟨"n", "", ""⟩).res =
      .err ("unable to open file. " ++ "no such file or directory") :=
  (C7_error_wrapping collabStub "p" ⟨[], none⟩ ⟨"n", "", ""⟩
    "no such file or directory").1 (by decide)

/-- Claim C8: whenever the key file is opened successfully, the handle is
closed on every exit path of the run — the result of any run that marks the
file as opened also marks it as closed, and every run over a readable file
with a non-empty `--key-path` both opens and closes the handle. -/
theorem C8_file_closed (c : Collab) (filePath : String) (file : Except Err ScannedFile)
    (opt : KeyCreateOptions) :
    ((runE c filePath file opt).fileOpened = true →
      (runE c filePath file opt).fileClosed = true) ∧
    (∀ sf, filePath ≠ "" → file = .ok sf →
      (runE c filePath file opt).fileOpened = true ∧
      (runE c filePath file opt).fileClosed = true) := by
  constructor
  · intro h
    unfold runE at h ⊢
    by_cases hf : filePath = ""
    · subst hf
      simp only [ne_eq, not_true_eq_false, if_false] at h ⊢
      rw [(afterScan_file_fields c opt []).1] at h
      cases h
    · rw [if_pos hf] at h ⊢
      rcases file with e | sf
      · cases h
      · rfl
  · intro sf h hsf
    subst hsf
    unfold runE
    rw [if_pos h]
    exact ⟨rfl, rfl⟩

/-- Witness for C8_file_closed: a run whose SSH validation fails right
after the scan still closes the opened handle. -/
theorem C8_file_closed_witness :
    (runE collabRejectKey "p" (.ok ⟨["x"], none⟩) ⟨"n", "", ""⟩).fileOpened = true ∧
    (runE collabRejectKey "p" (.ok ⟨["x"], none⟩) ⟨"n", "", ""⟩).fileClosed = true :=
  (C8_file_closed collabRejectKey "p" (.ok ⟨["x"], none⟩) ⟨"n", "", ""⟩).2
    ⟨["x"], none⟩ (by decide) rfl

/-- Claim C9 (implicit): the success path dereferences the returned key's
name pointer without a nil check — when the create call succeeds but
returns a nil key or a key with a nil name, `createKey` panics; a
non-panicking `nil`-error return forces a response with a non-nil name. -/
theorem C9_nil_name_panics (c : Collab) (opt : KeyCreateOptions) (a : String)
    (h1 : c.NewV1Client = .ok ()) (h2 : c.GetAccountID = .ok a)
    (h3 : opt.resourceGroupName ≠ "" →
      ∃ g, c.GetResourceGroupID opt.resourceGroupName a = .ok g) :
    ((∀ q, c.CreateKey q = .ok none ∨ c.CreateKey q = .ok (some ⟨none⟩)) →
      (createKey c opt).res = .panics) ∧
    ((createKey c opt).res = .ok → ∃ q n, c.CreateKey q = .ok (some ⟨some n⟩)) := by
  constructor
  · intro hck
    by_cases hrg : opt.resourceGroupName = ""
    · simp only [createKey, h1, h2, hrg, ne_eq, not_true_eq_false, if_false]
      rcases hck ((CreateKeyOptions.empty.SetName opt.name).SetPublicKey opt.publicKey)
          with hk | hk <;>
        simp [vpcCreateCall, hk]
    · obtain ⟨g, hg⟩ := h3 hrg
      simp only [createKey, h1, h2, hg, ne_eq, hrg, not_false_eq_true, if_true]
      rcases hck (((CreateKeyOptions.empty.SetName opt.name).SetPublicKey
          opt.publicKey).SetResourceGroup ⟨some g⟩) with hk | hk <;>
        simp [vpcCreateCall, hk]
  · intro h
    unfold createKey at h
    rcases hc : c.NewV1Client with e | u <;> rw [hc] at h
    · simp at h
    rcases hacc : c.GetAccountID with e | acct <;> rw [hacc] at h
    · simp at h
    simp only at h
    split at h
    · rcases hrg : c.GetResourceGroupID opt.resourceGroupName acct with e | g <;>
        rw [hrg] at h
      · simp at h
      · obtain ⟨n, hn⟩ := vpcCreateCall_ok_name c _ _ h
        exact ⟨_, n, hn⟩
    · obtain ⟨n, hn⟩ := vpcCreateCall_ok_name c _ _ h
      exact ⟨_, n, hn⟩

/-- Witness for C9_nil_name_panics: a create call returning a key with a
nil name makes the handler panic. -/
theorem C9_nil_name_panics_witness :
    (createKey collabNilName ⟨"n", "k", ""⟩).res = .panics :=
  (C9_nil_name_panics collabNilName ⟨"n", "k", ""⟩ "account-id" rfl rfl
    (fun h => absurd rfl h)).1 (fun _ => .inr rfl)

/-- Claim C10 (implicit): the scanner's error status is never consulted —
a run over a file whose read failed partway (after yielding some tokens)
is indistinguishable from a run over a file read cleanly to those same
tokens, so no I/O error is reported and SSH validation proceeds on the last
captured line (or the initial flag value if nothing was captured). -/
theorem C10_read_error_ignored (c : Collab) (filePath : String) (ts : List String)
    (e : Err) (opt : KeyCreateOptions) :
    runE c filePath (.ok ⟨ts, some e⟩) opt = runE c filePath (.ok ⟨ts, none⟩) opt ∧
    (filePath ≠ "" →
      sshParseArgs (runE c filePath (.ok ⟨ts, some e⟩) opt) =
        [ts.getLast?.getD opt.publicKey]) := by
  constructor
  · by_cases h : filePath = ""
    · subst h
      rfl
    · unfold runE
      simp only [if_pos h]
  · intro h
    rw [runE_sshArgs]
    unfold resolvedOf resolvedPublicKey
    rw [if_pos h, foldl_overwrite]

/-- Witness for C10_read_error_ignored: with a mid-read failure after one
token, validation still receives that token. -/
theorem C10_read_error_ignored_witness :
    sshParseArgs (runE collabStub "p" (.ok ⟨["tok"], some "unexpected EOF"⟩) ⟨"n", "", ""⟩) =
      ["tok"] := by
  have h := (C10_read_error_ignored collabStub "p" ["tok"] "unexpected EOF" ⟨"n", "", ""⟩).2
    (by decide)
  simpa using h

end VpcKeyCreate
